import Mathlib

/-!
# Shallow embedding of the RAG knowledge system's API core

This file embeds, in Lean, the server-side request handlers of the
repository that the specification's claims are about:

* `src/lib/rate-limit.ts` — `checkRateLimit` (fixed-window per-user,
  per-endpoint rate limiter);
* the chat route handler `POST /api/chat` (conversation resolution,
  user/assistant message persistence, backend call with fallback,
  conversation timestamp touch);
* the upload route handler `POST /api/upload` (document row creation and
  fire-and-forget backend processing trigger);
* the password route handler `PUT` (current-password check and update).

Conventions of the embedding:

* timestamps are `Int` milliseconds (JavaScript `Date.getTime()`);
* the Prisma store is explicit state: lists of rows, threaded through each
  handler; fresh row ids are list lengths;
* `session?.user?.id` optional chaining is modelled with nested `Option`s;
* JavaScript falsiness of a possibly-absent string (`!message`) is the
  predicate `isFalsy`: absent or empty;
* the external backend call is a parameter of the handler: an `Except`
  value saying whether the awaited `axios.post` resolved (with a payload)
  or rejected (network error, timeout, non-2xx status, undecodable body);
* each handler additionally returns the ordered trace of its externally
  visible persistence/backend events, so that ordering claims
  ("the user message is durable before the backend is invoked") are
  statements about the trace.
-/

namespace RagCore

/-- JavaScript falsiness of a string-valued field that may be absent:
`!x` is true when the field is `undefined`/`null` or the empty string. -/
def isFalsy : Option String → Bool
  | none => true
  | some s => s == ""

/-- The `session.user` object: next-auth may leave `id` undefined, hence `Option`. -/
structure SessionUser where
  id : Option String
deriving Repr, DecidableEq

/-- A next-auth server session; `user` may be absent. -/
structure Session where
  user : Option SessionUser
deriving Repr, DecidableEq

/-- The optional chaining `session?.user?.id`. -/
def sessionUserId (s : Option Session) : Option String :=
  (s.bind (fun x => x.user)).bind (fun u => u.id)

/-! ## Rate limiter (`src/lib/rate-limit.ts`) -/

/-- Source constant `RATE_LIMIT_WINDOW = 15 * 60 * 1000` (milliseconds). -/
def RATE_LIMIT_WINDOW : Int := 15 * 60 * 1000

/-- Source constant `MAX_REQUESTS = 100`. -/
def MAX_REQUESTS : Nat := 100

/-- A row of the `rateLimit` table, keyed by the unique pair
`(userId, endpoint)`. -/
structure RateLimit where
  userId : String
  endpoint : String
  count : Nat
  windowStart : Int
deriving Repr, DecidableEq

/-- Lookup `prisma.rateLimit.findUnique` by the unique `(userId, endpoint)` key. -/
def findRL (rls : List RateLimit) (u e : String) : Option RateLimit :=
  rls.find? (fun r => r.userId == u && r.endpoint == e)

/-- Update `prisma.rateLimit.update` keyed by `(userId, endpoint)`:
rewrite the row with the matching unique key. -/
def updateRL (rls : List RateLimit) (u e : String) (f : RateLimit → RateLimit) :
    List RateLimit :=
  rls.map (fun r => if r.userId == u && r.endpoint == e then f r else r)

/-- Function `checkRateLimit(endpoint)` of `src/lib/rate-limit.ts`, with the session,
the current time and the `rateLimit` table made explicit.  Returns the
boolean admission decision and the updated table.

Trace of the source: no session user id ⇒ `false`; no row ⇒ create
`{count: 1, windowStart: now}` and `true`; row with
`windowStart < now - RATE_LIMIT_WINDOW` ⇒ reset to
`{count: 1, windowStart: now}` and `true`; row with
`count >= MAX_REQUESTS` ⇒ `false`, no write; otherwise increment `count`
and `true`. -/
def checkRateLimit (session : Option Session) (endpoint : String) (now : Int)
    (rls : List RateLimit) : Bool × List RateLimit :=
  match sessionUserId session with
  | none => (false, rls)
  | some userId =>
    let windowStart := now - RATE_LIMIT_WINDOW
    match findRL rls userId endpoint with
    | none => (true, rls ++ [⟨userId, endpoint, 1, now⟩])
    | some rl =>
      if rl.windowStart < windowStart then
        (true, updateRL rls userId endpoint
          (fun r => { r with count := 1, windowStart := now }))
      else if rl.count ≥ MAX_REQUESTS then
        (false, rls)
      else
        (true, updateRL rls userId endpoint
          (fun r => { r with count := r.count + 1 }))

/-- Updating the row found by `findRL` is visible through `findRL`, provided
the update does not touch the key fields. -/
theorem findRL_updateRL (rls : List RateLimit) (u e : String)
    (f : RateLimit → RateLimit) (rl : RateLimit)
    (hu : ∀ r, (f r).userId = r.userId) (he : ∀ r, (f r).endpoint = r.endpoint)
    (hfind : findRL rls u e = some rl) :
    findRL (updateRL rls u e f) u e = some (f rl) := by
  induction rls with
  | nil => simp [findRL] at hfind
  | cons r t ih =>
    cases hkey : (r.userId == u && r.endpoint == e) with
    | true =>
      have hfr : ((f r).userId == u && (f r).endpoint == e) = true := by
        rw [hu r, he r]; exact hkey
      have hr : r = rl := by
        simpa [findRL, List.find?, hkey] using hfind
      subst hr
      simp [findRL, updateRL, List.find?, hkey, hfr]
    | false =>
      have hfr : ((f r).userId == u && (f r).endpoint == e) = false := by
        rw [hu r, he r]; exact hkey
      have ht : findRL t u e = some rl := by
        simpa [findRL, List.find?, hkey] using hfind
      have h2 := ih ht
      simpa [findRL, updateRL, List.find?, hkey, hfr] using h2

/-! ## Chat route (`POST /api/chat`) -/

/-- A retrieval source attached to an assistant message.  The repository's
`Source` interface carries a numeric relevance score; scores are opaque to
the handlers, so the embedding carries them as `Int`. -/
structure Source where
  documentId : String
  documentName : String
  chunk : String
  score : Int
deriving Repr, DecidableEq

/-- A row of the `message` table. -/
structure Message where
  id : Nat
  conversationId : Nat
  role : String
  content : String
  sources : List Source
  createdAt : Int
deriving Repr, DecidableEq

/-- A row of the `conversation` table. -/
structure Conversation where
  id : Nat
  userId : String
  title : String
  createdAt : Int
  updatedAt : Int
deriving Repr, DecidableEq

/-- The explicit Prisma store threaded through the chat handler. -/
structure Db where
  conversations : List Conversation
  messages : List Message
  rateLimits : List RateLimit
deriving Repr, DecidableEq

/-- The parsed request body `{ conversationId, message }`; either field may
be absent. -/
structure ChatBody where
  conversationId : Option Nat
  message : Option String
deriving Repr, DecidableEq

/-- The payload (`response.data`) of a *resolved* backend
`POST {backend}/api/chat`.  Axios resolves every 2xx response, including
one whose body is undecodable or wrong-shaped (its JSON parsing is
silent), so a resolved payload may lack `content` — hence `Option`;
`sources` may likewise be absent (the handler applies `|| []` to it). -/
structure BackendData where
  content : Option String
  sources : Option (List Source)
deriving Repr, DecidableEq

/-- Why an awaited `axios.post` *rejected*: transport failure, timeout, or
a non-2xx status (axios's default `validateStatus`).  These — and only
these — reach the handler's `catch` block; a malformed 2xx body does not
reject and is represented as `BackendData` with `content = none`. -/
inductive BackendFailure where
  | networkError
  | timeout
  | httpError (status : Nat)
deriving Repr, DecidableEq

/-- The fixed fallback content substituted by the chat handler catch
block (an apology asking the user to try again later). -/
def fallbackContent : String :=
  "I apologize, but I\x27m having trouble processing your request right now. Please try again later."

/-- The handler's possible HTTP responses (`NextResponse.json(...)`). -/
inductive ChatResult where
  | unauthorized
  | badRequest
  | forbidden
  | ok (conversationId : Nat) (assistantMessage : Message)
  | internalError
deriving Repr, DecidableEq

/-- HTTP status code of each chat response, as set by the source. -/
def chatStatus : ChatResult → Nat
  | .unauthorized => 401
  | .badRequest => 400
  | .forbidden => 403
  | .ok _ _ => 200
  | .internalError => 500

/-- Externally visible persistence/backend events of one handler run, in
order of occurrence. -/
inductive Event where
  | convCreate (id : Nat)
  | msgCreate (m : Message)
  | backendInvoke
  | convUpdate (id : Nat)
deriving Repr, DecidableEq

/-- Is an event a `prisma.conversation.update` (timestamp touch)? -/
def Event.isConvUpdate : Event → Bool
  | .convUpdate _ => true
  | _ => false

/-- The conversation-resolution block of the chat handler.

With `conversationId` present (truthy): `findUnique`, then
`if (conversation?.userId !== session.user.id) return 403` — note the
optional chaining: a missing conversation compares `undefined` against the
caller's id.  When the guard passes with the conversation still missing
(possible only when the session id is itself undefined), the later
`conversation.id` dereference throws, landing in the outer catch (500).

With `conversationId` absent: `prisma.conversation.create` with
`userId: session.user.id` (throws, hence 500, when that id is undefined)
and `title: message.substring(0, 50)`. -/
def resolveConversation (uid : Option String) (cid? : Option Nat)
    (content : String) (now : Int) (convs : List Conversation) :
    Except ChatResult (Conversation × List Conversation × List Event) :=
  match cid? with
  | some cid =>
    let conv? := convs.find? (fun c => c.id == cid)
    if conv?.map (fun c => c.userId) ≠ uid then .error .forbidden
    else
      match conv? with
      | some c => .ok (c, convs, [])
      | none => .error .internalError
  | none =>
    match uid with
    | none => .error .internalError
    | some u =>
      let c : Conversation :=
        ⟨convs.length, u, content.take 50, now, now⟩
      .ok (c, convs ++ [c], [.convCreate c.id])

/-- The `assistantResponse` variable of the chat handler: the payload of a
resolved backend call, or — in the `catch` block — the fixed fallback
`{content: fallbackContent, sources: []}`. -/
def assistantResponse (backend : Except BackendFailure BackendData) :
    BackendData :=
  match backend with
  | .ok d => d
  | .error _ => ⟨some fallbackContent, some []⟩

/-- The chat route handler `POST /api/chat` (`src/unnamed/part_002`).

Explicit parameters: the session, the parsed body, the outcome of the one
awaited backend call (`axios.post` resolved with a payload, or rejected),
the time observed at row creation and the time observed at the final
`updatedAt` touch, and the store.  Returns the HTTP response, the final
store, and the event trace.

Source order: auth guard (401) → `!message` guard (400) → conversation
resolution → `prisma.message.create` (user row) → backend call with
`catch` substituting the fixed fallback `{content, sources: []}` →
`prisma.message.create` (assistant row, `sources || []`) →
`prisma.conversation.update` of `updatedAt` → 200 response.  The
`rateLimit` table is never consulted.

When the backend *resolves* but its payload carries no `content` (a
malformed 2xx body), the assistant `prisma.message.create` throws a
validation error on the missing required `content` argument *before* any
write; the outer catch then answers 500, with the user message (and any
created conversation) already persisted and no `updatedAt` touch. -/
def chatPOST (session : Option Session) (body : ChatBody)
    (backend : Except BackendFailure BackendData)
    (nowCreate touchTime : Int) (db : Db) :
    ChatResult × Db × List Event :=
  match session with
  | none => (.unauthorized, db, [])
  | some s =>
    match s.user with
    | none => (.unauthorized, db, [])
    | some u =>
      if isFalsy body.message then (.badRequest, db, [])
      else
        match resolveConversation u.id body.conversationId
            (body.message.getD "") nowCreate db.conversations with
        | .error r => (r, db, [])
        | .ok (conv, convs1, ev) =>
          let userMsg : Message :=
            ⟨db.messages.length, conv.id, "user", body.message.getD "", [],
              nowCreate⟩
          let msgs1 := db.messages ++ [userMsg]
          let resp := assistantResponse backend
          match resp.content with
          | none =>
            (.internalError, ⟨convs1, msgs1, db.rateLimits⟩,
              ev ++ [.msgCreate userMsg, .backendInvoke])
          | some content =>
            let assistantMsg : Message :=
              ⟨msgs1.length, conv.id, "assistant", content,
                resp.sources.getD [], nowCreate⟩
            let convs2 := convs1.map (fun c =>
              if c.id == conv.id then { c with updatedAt := touchTime }
              else c)
            (.ok conv.id assistantMsg,
              ⟨convs2, msgs1 ++ [assistantMsg], db.rateLimits⟩,
              ev ++ [.msgCreate userMsg, .backendInvoke,
                .msgCreate assistantMsg, .convUpdate conv.id])

/-! ## Upload route (`POST /api/upload`) -/

/-- The browser `File` fields the upload handler reads. -/
structure FileData where
  name : String
  type : String
  size : Nat
deriving Repr, DecidableEq

/-- A row of the `document` table as created by the upload handler
(`uploadedAt` comes from the column's `now()` default). -/
structure Document where
  id : Nat
  userId : String
  filename : String
  originalName : String
  fileType : String
  fileSize : Nat
  status : String
  uploadedAt : Int
deriving Repr, DecidableEq

/-- The upload handler's possible HTTP responses. -/
inductive UploadResult where
  | unauthorized
  | badRequest
  | ok (documentId : Nat) (filename : String) (status : String)
  | internalError
deriving Repr, DecidableEq

/-- HTTP status code of each upload response, as set by the source. -/
def uploadStatus : UploadResult → Nat
  | .unauthorized => 401
  | .badRequest => 400
  | .ok _ _ _ => 200
  | .internalError => 500

/-- The upload route handler `POST /api/upload` (`src/unnamed/part_003`).

Explicit parameters: the session, the (possibly absent) form file, the
outcome of the fire-and-forget `axios.post({backend}/api/process-document)`
trigger, the time used in the `${Date.now()}-${file.name}` filename, and
the `document` table.

Source order: auth guard (401) → `!file` guard (400) → write the bytes to
disk → `prisma.document.create` with `status: "processing"` (throws, hence
500, when the session id is undefined) → the trigger inside its own
`try/catch` whose `catch` only logs, so its outcome is never inspected →
200 response `{documentId, filename, status}` read back from the created
row. -/
def uploadPOST (session : Option Session) (file? : Option FileData)
    (_trigger : Except BackendFailure Unit) (now : Int)
    (docs : List Document) : UploadResult × List Document :=
  match session with
  | none => (.unauthorized, docs)
  | some s =>
    match s.user with
    | none => (.unauthorized, docs)
    | some u =>
      match file? with
      | none => (.badRequest, docs)
      | some f =>
        match u.id with
        | none => (.internalError, docs)
        | some uid =>
          let filename := toString now ++ "-" ++ f.name
          let doc : Document :=
            ⟨docs.length, uid, filename, f.name, f.type, f.size,
              "processing", now⟩
          (.ok doc.id doc.filename doc.status, docs ++ [doc])

/-! ## Password route (`PUT /api/user/...`) -/

/-- A row of the `user` table; `password` is nullable. -/
structure User where
  id : String
  password : Option String
deriving Repr, DecidableEq

/-- The password handler's possible HTTP responses. -/
inductive PwResult where
  | unauthorized
  | missingFields
  | userNotFound
  | incorrectPassword
  | success
  | internalError
deriving Repr, DecidableEq

/-- HTTP status code of each password response, as set by the source:
`missingFields` and `incorrectPassword` are both 400 validation
responses. -/
def pwStatus : PwResult → Nat
  | .unauthorized => 401
  | .missingFields => 400
  | .userNotFound => 404
  | .incorrectPassword => 400
  | .success => 200
  | .internalError => 500

/-- The password route handler `PUT` (`src/unnamed/part_005`).

`cmp` stands for bcrypt's `compare(plain, hash)` and `hashFn` for
`hash(plain, 12)`; both are external pure collaborators.

Source order: auth guard (401) → `!currentPassword || !newPassword` guard
(400) → `prisma.user.findUnique` by the session id (throws, hence 500,
when that id is undefined) → `!user || !user.password` guard (404) →
`compare(currentPassword, user.password)` false ⇒ 400 "Current password is
incorrect", no write → otherwise `prisma.user.update` stores the new
hash → 200. -/
def updatePasswordPUT (cmp : String → String → Bool)
    (hashFn : String → String) (session : Option Session)
    (currentPassword newPassword : Option String) (users : List User) :
    PwResult × List User :=
  match session with
  | none => (.unauthorized, users)
  | some s =>
    match s.user with
    | none => (.unauthorized, users)
    | some u =>
      if isFalsy currentPassword || isFalsy newPassword then
        (.missingFields, users)
      else
        match u.id with
        | none => (.internalError, users)
        | some uid =>
          match users.find? (fun x => x.id == uid) with
          | none => (.userNotFound, users)
          | some usr =>
            if isFalsy usr.password then (.userNotFound, users)
            else if cmp (currentPassword.getD "") (usr.password.getD "") then
              let hp := hashFn (newPassword.getD "")
              (.success, users.map (fun x =>
                if x.id == uid then { x with password := some hp } else x))
            else
              (.incorrectPassword, users)

/-! ## Backend gateway request shape -/

/-- The options an `axios` request is issued with, as far as timeouts are
concerned: `timeout` is the per-request bound in milliseconds, absent when
no config object is passed (axios then applies no timeout at all). -/
structure AxiosConfig where
  url : String
  timeout : Option Int
deriving Repr, DecidableEq

/-- The backend chat request as issued by the chat handler:
`axios.post(`+`{backendUrl}/api/chat`+`, {userId, message})` with no
config argument, hence no `timeout` option. -/
def chatBackendRequest (backendUrl : String) : AxiosConfig :=
  ⟨backendUrl ++ "/api/chat", none⟩

/-! ## Claims about the rate limiter -/

/-- C2: for a stored counter whose window is still active, `checkRateLimit`
denies without mutating the table once `count ≥ MAX_REQUESTS = 100`, and
any admission against that window increments `count` by exactly 1 — hence
at most 100 admissions succeed within one window. -/
theorem checkRateLimit_window_bound (session : Option Session)
    (u e : String) (now : Int) (rls : List RateLimit) (rl : RateLimit)
    (hs : sessionUserId session = some u)
    (hfind : findRL rls u e = some rl)
    (hactive : ¬ rl.windowStart < now - RATE_LIMIT_WINDOW) :
    (rl.count ≥ MAX_REQUESTS →
      checkRateLimit session e now rls = (false, rls)) ∧
    (rl.count < MAX_REQUESTS →
      (checkRateLimit session e now rls).1 = true ∧
      findRL (checkRateLimit session e now rls).2 u e =
        some { rl with count := rl.count + 1 }) := by
  constructor
  · intro hc
    simp [checkRateLimit, hs, hfind, hactive, hc]
  · intro hc
    have hnc : ¬ rl.count ≥ MAX_REQUESTS := Nat.not_le.mpr hc
    constructor
    · simp [checkRateLimit, hs, hfind, hactive, hnc]
    · have h := findRL_updateRL rls u e
        (fun r => { r with count := r.count + 1 }) rl
        (fun _ => rfl) (fun _ => rfl) hfind
      simpa [checkRateLimit, hs, hfind, hactive, hnc] using h

/-- Closed witness for `checkRateLimit_window_bound`: user `u1` with an
active window and `count = 100` is denied and the table is unchanged. -/
theorem checkRateLimit_window_bound_witness :
    sessionUserId (some ⟨some ⟨some "u1"⟩⟩) = some "u1" ∧
    findRL [⟨"u1", "chat", 100, 0⟩] "u1" "chat" = some ⟨"u1", "chat", 100, 0⟩ ∧
    ¬ (0 : Int) < 1000 - RATE_LIMIT_WINDOW ∧
    checkRateLimit (some ⟨some ⟨some "u1"⟩⟩) "chat" 1000
      [⟨"u1", "chat", 100, 0⟩] = (false, [⟨"u1", "chat", 100, 0⟩]) :=
  ⟨rfl, rfl, by decide,
    (checkRateLimit_window_bound (some ⟨some ⟨some "u1"⟩⟩) "u1" "chat" 1000
      [⟨"u1", "chat", 100, 0⟩] ⟨"u1", "chat", 100, 0⟩ rfl rfl
      (by decide)).1 (by decide)⟩

/-- C3 counterexample: at elapsed time exactly `WINDOW_DURATION`
(`now - windowStart = 900000 ≥ RATE_LIMIT_WINDOW`) the claim says the next
call is admitted and resets the counter, but the source's reset guard is
the strict `windowStart < now - RATE_LIMIT_WINDOW`, so a full counter is
still denied and left unchanged. -/
theorem checkRateLimit_boundary_still_denies :
    (900000 : Int) - 0 ≥ RATE_LIMIT_WINDOW ∧
    checkRateLimit (some ⟨some ⟨some "u1"⟩⟩) "chat" 900000
      [⟨"u1", "chat", 100, 0⟩] = (false, [⟨"u1", "chat", 100, 0⟩]) :=
  ⟨by decide, rfl⟩

/-- C3 (amended): once the window has *strictly* expired
(`windowStart < now - RATE_LIMIT_WINDOW`, i.e. elapsed > 15 minutes), the
next call is admitted and the counter is reset to `count = 1`,
`windowStart = now`, regardless of the prior count. -/
theorem checkRateLimit_strict_expiry_resets (session : Option Session)
    (u e : String) (now : Int) (rls : List RateLimit) (rl : RateLimit)
    (hs : sessionUserId session = some u)
    (hfind : findRL rls u e = some rl)
    (hexp : rl.windowStart < now - RATE_LIMIT_WINDOW) :
    (checkRateLimit session e now rls).1 = true ∧
    findRL (checkRateLimit session e now rls).2 u e =
      some { rl with count := 1, windowStart := now } := by
  constructor
  · simp [checkRateLimit, hs, hfind, hexp]
  · have h := findRL_updateRL rls u e
      (fun r => { r with count := 1, windowStart := now }) rl
      (fun _ => rfl) (fun _ => rfl) hfind
    simpa [checkRateLimit, hs, hfind, hexp] using h

/-- Closed witness for `checkRateLimit_strict_expiry_resets`: one
millisecond past the window, a counter at 100 is reset to 1 and admitted. -/
theorem checkRateLimit_strict_expiry_resets_witness :
    (0 : Int) < 900001 - RATE_LIMIT_WINDOW ∧
    (checkRateLimit (some ⟨some ⟨some "u1"⟩⟩) "chat" 900001
      [⟨"u1", "chat", 100, 0⟩]).1 = true ∧
    findRL (checkRateLimit (some ⟨some ⟨some "u1"⟩⟩) "chat" 900001
      [⟨"u1", "chat", 100, 0⟩]).2 "u1" "chat" =
      some ⟨"u1", "chat", 1, 900001⟩ :=
  ⟨by decide,
    (checkRateLimit_strict_expiry_resets (some ⟨some ⟨some "u1"⟩⟩) "u1" "chat"
      900001 [⟨"u1", "chat", 100, 0⟩] ⟨"u1", "chat", 100, 0⟩ rfl rfl
      (by decide)).1,
    (checkRateLimit_strict_expiry_resets (some ⟨some ⟨some "u1"⟩⟩) "u1" "chat"
      900001 [⟨"u1", "chat", 100, 0⟩] ⟨"u1", "chat", 100, 0⟩ rfl rfl
      (by decide)).2⟩

/-- C7: when no authenticated subject resolves (`session?.user?.id` is
absent at any level), `checkRateLimit` denies as a normal boolean result
and leaves the table untouched. -/
theorem checkRateLimit_unauthenticated_denies (session : Option Session)
    (e : String) (now : Int) (rls : List RateLimit)
    (hs : sessionUserId session = none) :
    checkRateLimit session e now rls = (false, rls) := by
  simp [checkRateLimit, hs]

/-- Closed witness for `checkRateLimit_unauthenticated_denies`: a missing
session is denied on the `chat` endpoint. -/
theorem checkRateLimit_unauthenticated_denies_witness :
    sessionUserId (none : Option Session) = none ∧
    checkRateLimit none "chat" 0 [] = (false, []) :=
  ⟨rfl, checkRateLimit_unauthenticated_denies none "chat" 0 [] rfl⟩

/-! ## Claims about the chat route -/

/-- A successful conversation resolution emits no event (existing
conversation) or exactly one `convCreate` of the resolved conversation. -/
theorem resolveConversation_ok_events (uid : Option String)
    (cid? : Option Nat) (content : String) (now : Int)
    (convs : List Conversation) (conv : Conversation)
    (convs1 : List Conversation) (ev : List Event)
    (hr : resolveConversation uid cid? content now convs =
      .ok (conv, convs1, ev)) :
    ev = [] ∨ ev = [Event.convCreate conv.id] := by
  cases cid? with
  | some cid =>
    by_cases hg :
        (convs.find? (fun c => c.id == cid)).map (fun c => c.userId) ≠ uid
    · simp [resolveConversation, hg] at hr
    · have heq : (convs.find? (fun c => c.id == cid)).map
          (fun c => c.userId) = uid := not_ne_iff.mp hg
      cases hfind : convs.find? (fun c => c.id == cid) with
      | some c =>
        rw [hfind] at heq
        simp [resolveConversation, hfind, heq] at hr
        exact Or.inl hr.2.2
      | none =>
        rw [hfind] at heq
        simp [resolveConversation, hfind, ← heq] at hr
  | none =>
    cases uid with
    | none => simp [resolveConversation] at hr
    | some uStr =>
      simp [resolveConversation] at hr
      right
      rw [← hr.2.2, ← hr.1]

/-- The counter store plays no part in the chat route: the handler's
response, persisted messages, conversations and event trace are identical
whatever the `rateLimit` table holds, and that table is returned
unchanged.  (The source `POST /api/chat` never calls `checkRateLimit`.) -/
theorem chatPOST_no_rate_limiting (session : Option Session)
    (body : ChatBody) (backend : Except BackendFailure BackendData)
    (nowCreate touchTime : Int) (db : Db) (rls : List RateLimit) :
    (chatPOST session body backend nowCreate touchTime db).2.1.rateLimits =
      db.rateLimits ∧
    (chatPOST session body backend nowCreate touchTime
        { db with rateLimits := rls }).1 =
      (chatPOST session body backend nowCreate touchTime db).1 ∧
    (chatPOST session body backend nowCreate touchTime
        { db with rateLimits := rls }).2.1.messages =
      (chatPOST session body backend nowCreate touchTime db).2.1.messages ∧
    (chatPOST session body backend nowCreate touchTime
        { db with rateLimits := rls }).2.1.conversations =
      (chatPOST session body backend nowCreate touchTime db).2.1.conversations ∧
    (chatPOST session body backend nowCreate touchTime
        { db with rateLimits := rls }).2.2 =
      (chatPOST session body backend nowCreate touchTime db).2.2 := by
  cases session with
  | none => simp [chatPOST]
  | some s =>
    obtain ⟨u?⟩ := s
    cases u? with
    | none => simp [chatPOST]
    | some u =>
      by_cases hm : isFalsy body.message
      · simp [chatPOST, hm]
      · cases hr : resolveConversation u.id body.conversationId
            (body.message.getD "") nowCreate db.conversations with
        | error r => simp [chatPOST, hm, hr]
        | ok out =>
          cases hc : (assistantResponse backend).content with
          | none => simp [chatPOST, hm, hr, hc]
          | some content => simp [chatPOST, hm, hr, hc]

/-- C1 counterexample: user `u1` holds a `(u1, "chat")` counter with an
active window and `count = MAX_REQUESTS`, yet `POST /api/chat` succeeds
(status 200), creates a conversation and persists both messages, with the
counter row untouched — no `RateLimited` rejection exists on this path. -/
theorem chatPOST_at_limit_still_persists :
    (¬ (1000 : Int) < 2000 - RATE_LIMIT_WINDOW) ∧
    (100 : Nat) ≥ MAX_REQUESTS ∧
    chatStatus (chatPOST (some ⟨some ⟨some "u1"⟩⟩) ⟨none, some "hello"⟩
      (.ok ⟨some "answer", some []⟩) 2000 3000
      ⟨[], [], [⟨"u1", "chat", 100, 1000⟩]⟩).1 = 200 ∧
    (chatPOST (some ⟨some ⟨some "u1"⟩⟩) ⟨none, some "hello"⟩
      (.ok ⟨some "answer", some []⟩) 2000 3000
      ⟨[], [], [⟨"u1", "chat", 100, 1000⟩]⟩).2.1.messages.length = 2 ∧
    (chatPOST (some ⟨some ⟨some "u1"⟩⟩) ⟨none, some "hello"⟩
      (.ok ⟨some "answer", some []⟩) 2000 3000
      ⟨[], [], [⟨"u1", "chat", 100, 1000⟩]⟩).2.1.conversations.length = 1 ∧
    (chatPOST (some ⟨some ⟨some "u1"⟩⟩) ⟨none, some "hello"⟩
      (.ok ⟨some "answer", some []⟩) 2000 3000
      ⟨[], [], [⟨"u1", "chat", 100, 1000⟩]⟩).2.1.rateLimits =
      [⟨"u1", "chat", 100, 1000⟩] :=
  ⟨by decide, by decide, rfl, rfl, rfl, rfl⟩

/-- C6 counterexample: with no conversation of id 5 in the store, the
claim says the call fails with `NotFound` (404); the source's guard
`conversation?.userId !== session.user.id` compares `undefined` with the
caller's id and returns `Forbidden` (403) instead. -/
theorem chatPOST_missing_conversation_forbidden :
    (⟨[], [], []⟩ : Db).conversations.find? (fun c => c.id == 5) = none ∧
    chatPOST (some ⟨some ⟨some "u1"⟩⟩) ⟨some 5, some "hi"⟩
      (.ok ⟨some "a", some []⟩) 0 0 ⟨[], [], []⟩ =
      (.forbidden, ⟨[], [], []⟩, []) ∧
    chatStatus (chatPOST (some ⟨some ⟨some "u1"⟩⟩) ⟨some 5, some "hi"⟩
      (.ok ⟨some "a", some []⟩) 0 0 ⟨[], [], []⟩).1 = 403 :=
  ⟨rfl, rfl, rfl⟩

/-- C6 (amended): when `conversationId` is supplied and the looked-up
conversation's owner (absent when the conversation is missing) differs
from the caller's id, the call fails with `Forbidden` — the missing case
included — and has no side effects: store and trace unchanged. -/
theorem chatPOST_forbidden_no_side_effects (u : SessionUser)
    (body : ChatBody) (backend : Except BackendFailure BackendData)
    (nowCreate touchTime : Int) (db : Db) (cid : Nat)
    (hm : isFalsy body.message = false)
    (hc : body.conversationId = some cid)
    (hforb : (db.conversations.find? (fun c => c.id == cid)).map
      (fun c => c.userId) ≠ u.id) :
    chatPOST (some ⟨some u⟩) body backend nowCreate touchTime db =
      (.forbidden, db, []) := by
  simp [chatPOST, hm, resolveConversation, hc, hforb]

/-- Closed witness for `chatPOST_forbidden_no_side_effects`: caller `u1`
addressing a conversation owned by `u2` gets `Forbidden` and nothing is
written. -/
theorem chatPOST_forbidden_no_side_effects_witness :
    isFalsy (some "hi") = false ∧
    ((⟨[⟨0, "u2", "t", 0, 0⟩], [], []⟩ : Db).conversations.find?
      (fun c => c.id == 0)).map (fun c => c.userId) ≠ some "u1" ∧
    chatPOST (some ⟨some ⟨some "u1"⟩⟩) ⟨some 0, some "hi"⟩
      (.ok ⟨some "a", some []⟩) 0 0 ⟨[⟨0, "u2", "t", 0, 0⟩], [], []⟩ =
      (.forbidden, ⟨[⟨0, "u2", "t", 0, 0⟩], [], []⟩, []) :=
  ⟨rfl, by decide,
    chatPOST_forbidden_no_side_effects ⟨some "u1"⟩ ⟨some 0, some "hi"⟩
      (.ok ⟨some "a", some []⟩) 0 0 ⟨[⟨0, "u2", "t", 0, 0⟩], [], []⟩ 0
      rfl rfl (by decide)⟩

/-- Full shape of a chat run whose backend call rejected: the `catch`
branch substitutes the fixed fallback and the handler completes as on
success. -/
theorem chatPOST_backend_error_run (u : SessionUser) (body : ChatBody)
    (e : BackendFailure) (nowCreate touchTime : Int) (db : Db)
    (conv : Conversation) (convs1 : List Conversation) (ev : List Event)
    (hm : isFalsy body.message = false)
    (hr : resolveConversation u.id body.conversationId
      (body.message.getD "") nowCreate db.conversations =
      .ok (conv, convs1, ev)) :
    chatPOST (some ⟨some u⟩) body (.error e) nowCreate touchTime db =
      (.ok conv.id ⟨db.messages.length + 1, conv.id, "assistant",
          fallbackContent, [], nowCreate⟩,
        ⟨convs1.map (fun c =>
            if c.id == conv.id then { c with updatedAt := touchTime } else c),
          db.messages ++
            [⟨db.messages.length, conv.id, "user", body.message.getD "", [],
              nowCreate⟩,
             ⟨db.messages.length + 1, conv.id, "assistant", fallbackContent,
              [], nowCreate⟩],
          db.rateLimits⟩,
        ev ++ [.msgCreate ⟨db.messages.length, conv.id, "user",
            body.message.getD "", [], nowCreate⟩,
          .backendInvoke,
          .msgCreate ⟨db.messages.length + 1, conv.id, "assistant",
            fallbackContent, [], nowCreate⟩,
          .convUpdate conv.id]) := by
  simp [chatPOST, hm, hr, assistantResponse]

set_option maxRecDepth 4000 in
/-- C4 counterexample: the backend call *resolves* (2xx) with a malformed,
content-less payload — a case the claim files under "the backend call
fails".  The handler does not fall back: the assistant
`prisma.message.create` throws on the missing required `content`, the
outer catch answers 500, only the user message is persisted — there is no
assistant message with the apology text and `updatedAt` is untouched (the
created conversation still carries `updatedAt = 5`). -/
theorem chatPOST_malformed_resolved_500 :
    chatPOST (some ⟨some ⟨some "u1"⟩⟩) ⟨none, some "hi"⟩ (.ok ⟨none, none⟩)
      5 6 ⟨[], [], []⟩ =
      (.internalError,
        ⟨[⟨0, "u1", "hi", 5, 5⟩], [⟨0, 0, "user", "hi", [], 5⟩], []⟩,
        [.convCreate 0, .msgCreate ⟨0, 0, "user", "hi", [], 5⟩,
          .backendInvoke]) ∧
    chatStatus (chatPOST (some ⟨some ⟨some "u1"⟩⟩) ⟨none, some "hi"⟩
      (.ok ⟨none, none⟩) 5 6 ⟨[], [], []⟩).1 = 500 :=
  ⟨rfl, rfl⟩

/-- C4 (amended): a *rejected* backend call (network error, timeout,
non-2xx status) is absorbed — `sendMessage` still returns 200 with the
fixed apology content and empty sources, and both the user and fallback
assistant messages are persisted.  A backend call that *resolves* with a
malformed, content-less payload is not absorbed: the assistant message
create throws and the handler returns 500, with the user message already
persisted, no assistant message, and no `updatedAt` touch. -/
theorem chatPOST_rejection_fallback_malformed_500 (u : SessionUser)
    (body : ChatBody) (nowCreate touchTime : Int)
    (db : Db) (conv : Conversation) (convs1 : List Conversation)
    (ev : List Event)
    (hm : isFalsy body.message = false)
    (hr : resolveConversation u.id body.conversationId
      (body.message.getD "") nowCreate db.conversations =
      .ok (conv, convs1, ev)) :
    (∀ e : BackendFailure, ∃ am : Message,
      (chatPOST (some ⟨some u⟩) body (.error e) nowCreate touchTime db).1 =
        .ok conv.id am ∧
      chatStatus (chatPOST (some ⟨some u⟩) body (.error e) nowCreate
        touchTime db).1 = 200 ∧
      am.role = "assistant" ∧
      am.content = fallbackContent ∧
      am.sources = [] ∧
      (chatPOST (some ⟨some u⟩) body (.error e) nowCreate
          touchTime db).2.1.messages =
        db.messages ++
          [⟨db.messages.length, conv.id, "user", body.message.getD "", [],
            nowCreate⟩, am]) ∧
    (∀ srcs : Option (List Source),
      chatPOST (some ⟨some u⟩) body (.ok ⟨none, srcs⟩) nowCreate touchTime
          db =
        (.internalError,
          ⟨convs1,
            db.messages ++ [⟨db.messages.length, conv.id, "user",
              body.message.getD "", [], nowCreate⟩],
            db.rateLimits⟩,
          ev ++ [.msgCreate ⟨db.messages.length, conv.id, "user",
            body.message.getD "", [], nowCreate⟩, .backendInvoke])) := by
  constructor
  · intro e
    rw [chatPOST_backend_error_run u body e nowCreate touchTime db conv
      convs1 ev hm hr]
    exact ⟨_, rfl, rfl, rfl, rfl, rfl, rfl⟩
  · intro srcs
    simp [chatPOST, hm, hr, assistantResponse]

set_option maxRecDepth 4000 in
/-- Closed witness for `chatPOST_rejection_fallback_malformed_500`: on a
fresh conversation, every rejected backend call yields the 200 apology
turn with both messages persisted, and every content-less resolved
payload yields the 500 with only the user message persisted. -/
theorem chatPOST_rejection_fallback_malformed_500_witness :
    isFalsy (some "hi") = false ∧
    resolveConversation (some "u1") none "hi" 5 [] =
      .ok (⟨0, "u1", "hi", 5, 5⟩, [⟨0, "u1", "hi", 5, 5⟩],
        [.convCreate 0]) ∧
    ((∀ e : BackendFailure, ∃ am : Message,
      (chatPOST (some ⟨some ⟨some "u1"⟩⟩) ⟨none, some "hi"⟩ (.error e) 5 6
        ⟨[], [], []⟩).1 = .ok 0 am ∧
      chatStatus (chatPOST (some ⟨some ⟨some "u1"⟩⟩) ⟨none, some "hi"⟩
        (.error e) 5 6 ⟨[], [], []⟩).1 = 200 ∧
      am.role = "assistant" ∧
      am.content = fallbackContent ∧
      am.sources = [] ∧
      (chatPOST (some ⟨some ⟨some "u1"⟩⟩) ⟨none, some "hi"⟩ (.error e) 5 6
        ⟨[], [], []⟩).2.1.messages =
        [] ++ [⟨0, 0, "user", "hi", [], 5⟩, am]) ∧
    (∀ srcs : Option (List Source),
      chatPOST (some ⟨some ⟨some "u1"⟩⟩) ⟨none, some "hi"⟩ (.ok ⟨none, srcs⟩)
          5 6 ⟨[], [], []⟩ =
        (.internalError,
          ⟨[⟨0, "u1", "hi", 5, 5⟩],
            [] ++ [⟨0, 0, "user", "hi", [], 5⟩], []⟩,
          [.convCreate 0] ++ [.msgCreate ⟨0, 0, "user", "hi", [], 5⟩,
            .backendInvoke]))) :=
  ⟨rfl, rfl,
    chatPOST_rejection_fallback_malformed_500 ⟨some "u1"⟩ ⟨none, some "hi"⟩
      5 6 ⟨[], [], []⟩ ⟨0, "u1", "hi", 5, 5⟩ [⟨0, "u1", "hi", 5, 5⟩]
      [.convCreate 0] rfl rfl⟩

/-- Full shape of any chat run that passes the auth, validation and
conversation-resolution guards, for an arbitrary backend outcome. -/
theorem chatPOST_ok_run (u : SessionUser) (body : ChatBody)
    (backend : Except BackendFailure BackendData) (c : String)
    (nowCreate touchTime : Int) (db : Db) (conv : Conversation)
    (convs1 : List Conversation) (ev : List Event)
    (hm : isFalsy body.message = false)
    (hr : resolveConversation u.id body.conversationId
      (body.message.getD "") nowCreate db.conversations =
      .ok (conv, convs1, ev))
    (hc : (assistantResponse backend).content = some c) :
    chatPOST (some ⟨some u⟩) body backend nowCreate touchTime db =
      (.ok conv.id ⟨db.messages.length + 1, conv.id, "assistant", c,
          (assistantResponse backend).sources.getD [], nowCreate⟩,
        ⟨convs1.map (fun c =>
            if c.id == conv.id then { c with updatedAt := touchTime } else c),
          db.messages ++
            [⟨db.messages.length, conv.id, "user", body.message.getD "", [],
              nowCreate⟩,
             ⟨db.messages.length + 1, conv.id, "assistant", c,
              (assistantResponse backend).sources.getD [], nowCreate⟩],
          db.rateLimits⟩,
        ev ++ [.msgCreate ⟨db.messages.length, conv.id, "user",
            body.message.getD "", [], nowCreate⟩,
          .backendInvoke,
          .msgCreate ⟨db.messages.length + 1, conv.id, "assistant", c,
            (assistantResponse backend).sources.getD [], nowCreate⟩,
          .convUpdate conv.id]) := by
  simp [chatPOST, hm, hr, hc]

/-- C5: a successful `sendMessage` appends exactly one user message and
then one assistant message (in that order) to the resolved conversation,
the user row is persisted before the backend is invoked (it precedes
`backendInvoke` in the trace), and the conversation's `updatedAt` is
touched exactly once, to the strictly larger touch time. -/
theorem chatPOST_success_turn (u : SessionUser) (body : ChatBody)
    (backend : Except BackendFailure BackendData) (c : String)
    (nowCreate touchTime : Int) (db : Db) (conv : Conversation)
    (convs1 : List Conversation) (ev : List Event)
    (hm : isFalsy body.message = false)
    (hr : resolveConversation u.id body.conversationId
      (body.message.getD "") nowCreate db.conversations =
      .ok (conv, convs1, ev))
    (hc : (assistantResponse backend).content = some c)
    (ht : conv.updatedAt < touchTime) :
    ∃ um am : Message,
      um.role = "user" ∧
      um.content = body.message.getD "" ∧
      um.conversationId = conv.id ∧
      am.role = "assistant" ∧
      am.conversationId = conv.id ∧
      (chatPOST (some ⟨some u⟩) body backend nowCreate touchTime db).1 =
        .ok conv.id am ∧
      (chatPOST (some ⟨some u⟩) body backend nowCreate
          touchTime db).2.1.messages = db.messages ++ [um, am] ∧
      (chatPOST (some ⟨some u⟩) body backend nowCreate touchTime db).2.2 =
        ev ++ [.msgCreate um, .backendInvoke, .msgCreate am,
          .convUpdate conv.id] ∧
      ((chatPOST (some ⟨some u⟩) body backend nowCreate
          touchTime db).2.2.countP Event.isConvUpdate) = 1 ∧
      (chatPOST (some ⟨some u⟩) body backend nowCreate
          touchTime db).2.1.conversations =
        convs1.map (fun c =>
          if c.id == conv.id then { c with updatedAt := touchTime } else c) ∧
      conv.updatedAt < touchTime := by
  rw [chatPOST_ok_run u body backend c nowCreate touchTime db conv convs1
    ev hm hr hc]
  refine ⟨⟨db.messages.length, conv.id, "user", body.message.getD "", [],
      nowCreate⟩,
    ⟨db.messages.length + 1, conv.id, "assistant", c,
      (assistantResponse backend).sources.getD [], nowCreate⟩,
    rfl, rfl, rfl, rfl, rfl, rfl, rfl, rfl, ?_, rfl, ht⟩
  rcases resolveConversation_ok_events u.id body.conversationId
      (body.message.getD "") nowCreate db.conversations conv convs1 ev hr
    with hev | hev <;>
    subst hev <;>
    simp [Event.isConvUpdate]

set_option maxRecDepth 4000 in
/-- Closed witness for `chatPOST_success_turn`: a fresh conversation, a
resolved backend answer, and a later touch time yield the two-message
turn with one timestamp touch. -/
theorem chatPOST_success_turn_witness :
    isFalsy (some "hi") = false ∧
    resolveConversation (some "u1") none "hi" 5 [] =
      .ok (⟨0, "u1", "hi", 5, 5⟩, [⟨0, "u1", "hi", 5, 5⟩],
        [.convCreate 0]) ∧
    (assistantResponse (.ok ⟨some "ans", some []⟩)).content = some "ans" ∧
    (5 : Int) < 6 ∧
    ∃ um am : Message,
      um.role = "user" ∧
      um.content = "hi" ∧
      um.conversationId = 0 ∧
      am.role = "assistant" ∧
      am.conversationId = 0 ∧
      (chatPOST (some ⟨some ⟨some "u1"⟩⟩) ⟨none, some "hi"⟩
        (.ok ⟨some "ans", some []⟩) 5 6 ⟨[], [], []⟩).1 = .ok 0 am ∧
      (chatPOST (some ⟨some ⟨some "u1"⟩⟩) ⟨none, some "hi"⟩
        (.ok ⟨some "ans", some []⟩) 5 6 ⟨[], [], []⟩).2.1.messages =
        [] ++ [um, am] ∧
      (chatPOST (some ⟨some ⟨some "u1"⟩⟩) ⟨none, some "hi"⟩
        (.ok ⟨some "ans", some []⟩) 5 6 ⟨[], [], []⟩).2.2 =
        [.convCreate 0] ++ [.msgCreate um, .backendInvoke, .msgCreate am,
          .convUpdate 0] ∧
      ((chatPOST (some ⟨some ⟨some "u1"⟩⟩) ⟨none, some "hi"⟩
        (.ok ⟨some "ans", some []⟩) 5 6 ⟨[], [], []⟩).2.2.countP
          Event.isConvUpdate) = 1 ∧
      (chatPOST (some ⟨some ⟨some "u1"⟩⟩) ⟨none, some "hi"⟩
        (.ok ⟨some "ans", some []⟩) 5 6 ⟨[], [], []⟩).2.1.conversations =
        [⟨0, "u1", "hi", 5, 5⟩].map (fun c =>
          if c.id == 0 then { c with updatedAt := 6 } else c) ∧
      (5 : Int) < 6 :=
  ⟨rfl, rfl, rfl, by decide,
    chatPOST_success_turn ⟨some "u1"⟩ ⟨none, some "hi"⟩
      (.ok ⟨some "ans", some []⟩) "ans" 5 6 ⟨[], [], []⟩
      ⟨0, "u1", "hi", 5, 5⟩ [⟨0, "u1", "hi", 5, 5⟩] [.convCreate 0]
      rfl rfl rfl (by decide)⟩

/-! ## Claims about the backend gateway call -/

/-- C8 counterexample: the chat handler's backend request carries no
timeout option at all — `axios.post` is called with no config argument —
so no bound `t` exists for the concrete invocation against the default
backend URL. -/
theorem chatBackendRequest_no_timeout :
    ¬ ∃ t : Int,
      (chatBackendRequest "http://localhost:8000").timeout = some t := by
  rintro ⟨t, ht⟩
  simp [chatBackendRequest] at ht

/-- C8 (amended): the backend chat request is issued against
`{backendUrl}/api/chat` with *no* timeout configured (so the orchestrator
is not protected from an indefinitely hanging backend), while any failure
the call does raise is absorbed into the same fallback handling as every
other transport failure. -/
theorem chatBackendRequest_unbounded_with_fallback (b : String)
    (u : SessionUser) (body : ChatBody) (e : BackendFailure)
    (nowCreate touchTime : Int) (db : Db) (conv : Conversation)
    (convs1 : List Conversation) (ev : List Event)
    (hm : isFalsy body.message = false)
    (hr : resolveConversation u.id body.conversationId
      (body.message.getD "") nowCreate db.conversations =
      .ok (conv, convs1, ev)) :
    (chatBackendRequest b).timeout = none ∧
    (chatBackendRequest b).url = b ++ "/api/chat" ∧
    ∃ am : Message,
      (chatPOST (some ⟨some u⟩) body (.error e) nowCreate touchTime db).1 =
        .ok conv.id am ∧
      am.content = fallbackContent := by
  refine ⟨rfl, rfl, ?_⟩
  rw [chatPOST_backend_error_run u body e nowCreate touchTime db conv convs1
    ev hm hr]
  exact ⟨_, rfl, rfl⟩

set_option maxRecDepth 4000 in
/-- Closed witness for `chatBackendRequest_unbounded_with_fallback`: the
default backend URL, a timed-out call, and a fresh conversation. -/
theorem chatBackendRequest_unbounded_with_fallback_witness :
    isFalsy (some "hi") = false ∧
    resolveConversation (some "u1") none "hi" 5 [] =
      .ok (⟨0, "u1", "hi", 5, 5⟩, [⟨0, "u1", "hi", 5, 5⟩],
        [.convCreate 0]) ∧
    ((chatBackendRequest "http://localhost:8000").timeout = none ∧
      (chatBackendRequest "http://localhost:8000").url =
        "http://localhost:8000" ++ "/api/chat" ∧
      ∃ am : Message,
        (chatPOST (some ⟨some ⟨some "u1"⟩⟩) ⟨none, some "hi"⟩
          (.error .timeout) 5 6 ⟨[], [], []⟩).1 = .ok 0 am ∧
        am.content = fallbackContent) :=
  ⟨rfl, rfl,
    chatBackendRequest_unbounded_with_fallback "http://localhost:8000"
      ⟨some "u1"⟩ ⟨none, some "hi"⟩ .timeout 5 6 ⟨[], [], []⟩
      ⟨0, "u1", "hi", 5, 5⟩ [⟨0, "u1", "hi", 5, 5⟩] [.convCreate 0]
      rfl rfl⟩

/-! ## Claim about the upload route -/

/-- C9: an authenticated upload with a file present succeeds with
`{documentId, filename, status: "processing"}` and the created document
row intact even when the fire-and-forget processing trigger fails — the
run is identical to one whose trigger succeeded, since the `catch` around
the trigger only logs. -/
theorem uploadPOST_trigger_failure_still_succeeds (u : SessionUser)
    (uid : String) (f : FileData) (e : BackendFailure) (now : Int)
    (docs : List Document)
    (hu : u.id = some uid) :
    uploadPOST (some ⟨some u⟩) (some f) (.error e) now docs =
      (.ok docs.length (toString now ++ "-" ++ f.name) "processing",
        docs ++ [⟨docs.length, uid, toString now ++ "-" ++ f.name, f.name,
          f.type, f.size, "processing", now⟩]) ∧
    uploadPOST (some ⟨some u⟩) (some f) (.error e) now docs =
      uploadPOST (some ⟨some u⟩) (some f) (.ok ()) now docs := by
  constructor
  · simp [uploadPOST, hu]
  · rfl

/-- Closed witness for `uploadPOST_trigger_failure_still_succeeds`: user
`u1` uploads `a.pdf` at time 7, the trigger rejects, the response is
still the 200 triple and the row is persisted. -/
theorem uploadPOST_trigger_failure_still_succeeds_witness :
    (⟨some "u1"⟩ : SessionUser).id = some "u1" ∧
    uploadPOST (some ⟨some ⟨some "u1"⟩⟩) (some ⟨"a.pdf", "application/pdf", 3⟩)
      (.error .networkError) 7 [] =
      (.ok 0 (toString (7 : Int) ++ "-" ++ "a.pdf") "processing",
        [] ++ [⟨0, "u1", toString (7 : Int) ++ "-" ++ "a.pdf", "a.pdf",
          "application/pdf", 3, "processing", 7⟩]) ∧
    uploadPOST (some ⟨some ⟨some "u1"⟩⟩) (some ⟨"a.pdf", "application/pdf", 3⟩)
      (.error .networkError) 7 [] =
      uploadPOST (some ⟨some ⟨some "u1"⟩⟩)
        (some ⟨"a.pdf", "application/pdf", 3⟩) (.ok ()) 7 [] :=
  ⟨rfl,
    (uploadPOST_trigger_failure_still_succeeds ⟨some "u1"⟩ "u1"
      ⟨"a.pdf", "application/pdf", 3⟩ .networkError 7 [] rfl).1,
    (uploadPOST_trigger_failure_still_succeeds ⟨some "u1"⟩ "u1"
      ⟨"a.pdf", "application/pdf", 3⟩ .networkError 7 [] rfl).2⟩

/-! ## Claim about the password route -/

/-- C10: when bcrypt's `compare` rejects the supplied current password
against the stored hash, the handler answers with the 400 validation
response "Current password is incorrect" and the user table — in
particular the stored password — is unchanged. -/
theorem updatePasswordPUT_incorrect_current (cmp : String → String → Bool)
    (hashFn : String → String) (u : SessionUser) (uid : String)
    (cur newPw : Option String) (users : List User) (usr : User)
    (hu : u.id = some uid)
    (hcur : isFalsy cur = false)
    (hnew : isFalsy newPw = false)
    (hfind : users.find? (fun x => x.id == uid) = some usr)
    (hpw : isFalsy usr.password = false)
    (hcmp : cmp (cur.getD "") (usr.password.getD "") = false) :
    updatePasswordPUT cmp hashFn (some ⟨some u⟩) cur newPw users =
      (.incorrectPassword, users) ∧
    pwStatus .incorrectPassword = 400 := by
  constructor
  · simp [updatePasswordPUT, hu, hcur, hnew, hfind, hpw, hcmp]
  · rfl

/-- Closed witness for `updatePasswordPUT_incorrect_current`: with string
equality as the compare oracle, a wrong current password yields the 400
response and leaves the stored hash in place. -/
theorem updatePasswordPUT_incorrect_current_witness :
    (⟨some "u1"⟩ : SessionUser).id = some "u1" ∧
    isFalsy (some "wrong") = false ∧
    isFalsy (some "next") = false ∧
    [(⟨"u1", some "hash1"⟩ : User)].find? (fun x => x.id == "u1") =
      some ⟨"u1", some "hash1"⟩ ∧
    isFalsy (some "hash1" : Option String) = false ∧
    ((fun a b => a == b) "wrong" "hash1") = false ∧
    updatePasswordPUT (fun a b => a == b) (fun p => p)
      (some ⟨some ⟨some "u1"⟩⟩) (some "wrong") (some "next")
      [⟨"u1", some "hash1"⟩] =
      (.incorrectPassword, [⟨"u1", some "hash1"⟩]) :=
  ⟨rfl, rfl, rfl, by decide, rfl, by decide,
    (updatePasswordPUT_incorrect_current (fun a b => a == b) (fun p => p)
      ⟨some "u1"⟩ "u1" (some "wrong") (some "next") [⟨"u1", some "hash1"⟩]
      ⟨"u1", some "hash1"⟩ rfl rfl rfl (by decide) rfl (by decide)).1⟩

end RagCore
